import Mathlib

/-!
Verification of the session-management / job-correlation core of
`dota2/client.py` (class `Dota2Client`).

The Python code is shallowly embedded: the mutable client attributes
(`current_jobid`, `ready`, `connection_status`, `_retry_welcome_loop`,
`steam.current_games_played`, registered listeners) become a `ClientState`
record, and each method becomes a pure function returning the updated state
together with the list of events it `emit`s, in emission order.  External
collaborators that the source merely calls (the protobuf schema registry
`find_proto` / `get_emsg_enum`, parsing) are abstracted as a
`SchemaRegistry` of lookup functions, exactly the boundary the code uses.
-/

namespace Dota2

/-- The sentinel "no target" job id used by the protobuf header,
`18446744073709551615 = 2^64 - 1` (compared literally in
`_process_gc_message`). -/
def JOBID_NONE : Nat := 18446744073709551615

/-- `dota2.enums.GCConnectionStatus` as the spec's data model gives it:
the session status enumeration with `NO_SESSION` and `HAVE_SESSION`. -/
inductive GCConnectionStatus where
  | HAVE_SESSION
  | NO_SESSION
  deriving DecidableEq, Repr

/-- A decoded protobuf message: the resolved proto class together with the
raw payload it was parsed from (`message = proto(); message.ParseFromString
(payload)`).  Parsing itself is external to the embedded core, so a decoded
message is identified by this pair. -/
structure DecodedMsg where
  proto : Nat
  payload : List Nat
  deriving DecidableEq, Repr

/-- The GC message header (`steam.core.msg.GCMsgHdrProto`): message-type id
plus job-correlation ids, which default to the sentinel. -/
structure GCMsgHdrProto where
  msg : Nat
  job_id_source : Nat := JOBID_NONE
  job_id_target : Nat := JOBID_NONE
  deriving DecidableEq, Repr

/-- An embedded sub-message of the welcome payload
(`submessage.extra_messages`, each with `.id` and `.contents`). -/
structure ExtraMsg where
  id : Nat
  contents : List Nat
  deriving DecidableEq, Repr

/-- The decoded `CMsgDOTAWelcome` sub-message (`pb_gclient.CMsgDOTAWelcome`),
of which the core only uses `extra_messages`. -/
structure DOTAWelcome where
  extra_messages : List ExtraMsg
  deriving DecidableEq, Repr

/-- The GC client-welcome message; the core parses its `game_data` bytes
into a `CMsgDOTAWelcome`, so we carry that decoded form directly. -/
structure CMsgClientWelcome where
  game_data : DOTAWelcome
  deriving DecidableEq, Repr

/-- A wait/listener key: either the string key `job_<id>` built by
`send_job` / `_process_gc_message`, or a message-type key. -/
inductive WaitKey where
  | job (id : Nat)
  | msg (emsg : Nat)
  deriving DecidableEq, Repr

/-- Events `emit`ted by the client, in the source's emission order. -/
inductive GCEvent where
  | connection_status (s : GCConnectionStatus)
  | ready
  | notready
  | msg (emsg : Nat) (m : DecodedMsg)
  | job (id : Nat) (m : DecodedMsg)
  | dota_welcome (m : DOTAWelcome)
  deriving DecidableEq, Repr

/-- Status of the `_retry_welcome_loop` greenlet attribute: `None`, a live
greenlet, or a killed (dead, but still truthy) greenlet. -/
inductive LoopStatus where
  | noLoop
  | running
  | dead
  deriving DecidableEq, Repr

/-- The external schema registry boundary: `dota2.msg.get_emsg_enum`,
`dota2.msg.find_proto`, and the `issubclass(·, google.protobuf.message
.Message)` test used by `_send`. -/
structure SchemaRegistry where
  get_emsg_enum : Nat → Nat
  find_proto : Nat → Option Nat
  is_message_class : Nat → Bool

/-- The mutable state of a `Dota2Client`. -/
structure ClientState where
  current_jobid : Nat
  ready : Bool
  connection_status : GCConnectionStatus
  retry_welcome_loop : LoopStatus
  current_games_played : List Nat
  listeners : List WaitKey
  transport_connected : Bool
  deriving DecidableEq, Repr

/-- `Dota2Client.app_id = 570`. -/
def app_id : Nat := 570

/-- The initial attribute values of `Dota2Client`. -/
def initState : ClientState :=
  { current_jobid := 0
    ready := false
    connection_status := GCConnectionStatus.NO_SESSION
    retry_welcome_loop := LoopStatus.noLoop
    current_games_played := []
    listeners := []
    transport_connected := true }

/-- `Dota2Client._set_connection_status`: store the new status, emit
`connection_status` iff it changed, then flip `ready` and emit
`ready`/`notready` iff the derived flag changed. -/
def _set_connection_status (s : ClientState) (status : GCConnectionStatus) :
    ClientState × List GCEvent :=
  let prev := s.connection_status
  let s1 : ClientState := { s with connection_status := status }
  let evs1 :=
    if s1.connection_status ≠ prev then
      [GCEvent.connection_status s1.connection_status]
    else []
  if s1.connection_status = GCConnectionStatus.HAVE_SESSION ∧ s1.ready = false then
    ({ s1 with ready := true }, evs1 ++ [GCEvent.ready])
  else if s1.connection_status ≠ GCConnectionStatus.HAVE_SESSION ∧ s1.ready = true then
    ({ s1 with ready := false }, evs1 ++ [GCEvent.notready])
  else
    (s1, evs1)

/-- `.kill()` applied to `self._retry_welcome_loop` when it is truthy
(`if self._retry_welcome_loop: self._retry_welcome_loop.kill()`): a live
greenlet dies, a dead one stays dead, `None` stays `None`. -/
def killLoop : LoopStatus → LoopStatus
  | LoopStatus.noLoop => LoopStatus.noLoop
  | _ => LoopStatus.dead

/-- `Dota2Client._handle_disconnect`: kill the retry loop if present, then
set the connection status to `NO_SESSION`. -/
def _handle_disconnect (s : ClientState) : ClientState × List GCEvent :=
  _set_connection_status
    { s with retry_welcome_loop := killLoop s.retry_welcome_loop }
    GCConnectionStatus.NO_SESSION

/-- `Dota2Client._process_gc_message`: convert the raw id with
`get_emsg_enum`, look up a proto; on lookup failure log and drop, otherwise
decode and emit under the message-type key, plus under `job_<target>` when
the header's `job_id_target` is not the sentinel. -/
def _process_gc_message (reg : SchemaRegistry) (emsg : Nat)
    (header : GCMsgHdrProto) (payload : List Nat) : List GCEvent :=
  let e := reg.get_emsg_enum emsg
  match reg.find_proto e with
  | none => []
  | some p =>
    let message : DecodedMsg := { proto := p, payload := payload }
    GCEvent.msg e message ::
      (if header.job_id_target ≠ JOBID_NONE then
        [GCEvent.job header.job_id_target message]
      else [])

/-- The `for extra in submessage.extra_messages:` loop of
`_handle_client_welcome`: each extra is fed through `_process_gc_message`
with a fresh header `GCMsgHdrProto(extra.id)` (whose job ids are the
default sentinel), in list order. -/
def processExtras (reg : SchemaRegistry) : List ExtraMsg → List GCEvent
  | [] => []
  | extra :: rest =>
    _process_gc_message reg extra.id { msg := extra.id } extra.contents ++
      processExtras reg rest

/-- `Dota2Client._handle_client_welcome`: set status `HAVE_SESSION`, parse
`game_data` into a `CMsgDOTAWelcome`, emit `dota_welcome` with it, then
dispatch every `extra_messages` entry through `_process_gc_message`. -/
def _handle_client_welcome (reg : SchemaRegistry) (s : ClientState)
    (message : CMsgClientWelcome) : ClientState × List GCEvent :=
  let r := _set_connection_status s GCConnectionStatus.HAVE_SESSION
  let submessage := message.game_data
  (r.1, r.2 ++ [GCEvent.dota_welcome submessage] ++
    processExtras reg submessage.extra_messages)

/-- The shape of the `data` argument of `send`/`_send`: a Python dict (with
its entries) or any non-dict value. -/
inductive PyData where
  | dict (entries : List (String × Nat))
  | other
  deriving DecidableEq, Repr

/-- The errors `_send` raises: `ValueError("data kwarg can only be a
dict")`, or the failure to resolve a usable proto class (the `TypeError`
from `issubclass(None, ...)` when `find_proto` returns `None`, or
`ValueError("Unable to find proto for emsg, or proto kwarg is invalid")`). -/
inductive SendError where
  | dataNotDict
  | protoInvalid
  deriving DecidableEq, Repr

/-- The envelope handed to the transport by `GameCoordinator.send(self,
header, message.SerializeToString())`: the header plus the filled message
(proto class and the dict it was filled from). -/
structure OutEnvelope where
  header : GCMsgHdrProto
  proto_class : Nat
  data : List (String × Nat)
  deriving DecidableEq, Repr

/-- `Dota2Client._send`: reject non-dict `data`; resolve the proto class
(the `proto` argument if given, else `find_proto(emsg)`); reject when the
result is `None` or not a protobuf message class; otherwise build the
header (with `job_id_source` set when a `jobid` is supplied) and send. -/
def _send (reg : SchemaRegistry) (emsg : Nat) (data : PyData)
    (proto : Option Nat) (jobid : Option Nat) : Except SendError OutEnvelope :=
  match data with
  | PyData.other => Except.error SendError.dataNotDict
  | PyData.dict entries =>
    let p := match proto with
      | none => reg.find_proto emsg
      | some q => some q
    match p with
    | none => Except.error SendError.protoInvalid
    | some pc =>
      if reg.is_message_class pc then
        Except.ok
          { header :=
              { msg := emsg
                job_id_source := match jobid with
                  | some j => j
                  | none => JOBID_NONE }
            proto_class := pc
            data := entries }
      else Except.error SendError.protoInvalid

/-- The job-id allocation expression of `send_job`:
`((self.current_jobid + 1) % 10000) or 1` (Python `or` maps a zero result
to `1`), chained-assigned to both `jobid` and `self.current_jobid`. -/
def next_jobid (c : Nat) : Nat :=
  if (c + 1) % 10000 = 0 then 1 else (c + 1) % 10000

/-- `Dota2Client.send_job`: allocate the next job id, clear all listeners
on its `job_<id>` key (`remove_all_listeners`), send with
`jobid=jobid`, and return the job key. -/
def send_job (reg : SchemaRegistry) (s : ClientState) (emsg : Nat)
    (data : PyData) (proto : Option Nat) :
    WaitKey × ClientState × Except SendError OutEnvelope :=
  let jobid := next_jobid s.current_jobid
  let s1 : ClientState :=
    { s with
      current_jobid := jobid
      listeners := s.listeners.filter (fun k => k ≠ WaitKey.job jobid) }
  (WaitKey.job jobid, s1, _send reg emsg data proto (some jobid))

/-- Modelled from the spec: the registration step of the waiter
(`eventemitter`'s `wait_event`, not under `src/`).  Per invariant I2, a new
wait for a key "supersedes/clears any stale prior one before registering":
prior listeners for the key are removed, then the single new wait is
registered. -/
def register_wait (k : WaitKey) (l : List WaitKey) : List WaitKey :=
  k :: l.filter (fun k' => k' ≠ k)

/-- The outcome of a single wait: the router emitted a matching decoded
message before the deadline, or the timeout elapsed. -/
inductive WaitOutcome where
  | matched (m : DecodedMsg)
  | timedOut
  deriving DecidableEq, Repr

/-- The `gevent.Timeout` raised on timeout when `raises` is true. -/
inductive GTimeout where
  | timeout
  deriving DecidableEq, Repr

/-- Modelled from the spec: `eventemitter`'s `wait_event` (not under
`src/`).  On a match it returns the tuple of emitted arguments (here the
one decoded message); on timeout it returns `None` when `raises` is false
and raises `gevent.Timeout` when `raises` is true. -/
def wait_event (outcome : WaitOutcome) (raises : Bool) :
    Except GTimeout (Option (DecodedMsg × Unit)) :=
  match outcome with
  | WaitOutcome.matched m => Except.ok (some (m, ()))
  | WaitOutcome.timedOut =>
    if raises then Except.error GTimeout.timeout else Except.ok none

/-- `Dota2Client.wait_msg`: call `wait_event`; if the response tuple is not
`None` return its first element, else (implicitly) return `None`; a raised
`gevent.Timeout` propagates. -/
def wait_msg (outcome : WaitOutcome) (raises : Bool) :
    Except GTimeout (Option DecodedMsg) :=
  match wait_event outcome raises with
  | Except.error e => Except.error e
  | Except.ok resp =>
    match resp with
    | some t => Except.ok (some t.1)
    | none => Except.ok none

/-- `Dota2Client.exit`: kill the retry loop if present, remove `app_id`
from `current_games_played` if present (and re-declare the played set),
then set the status to `NO_SESSION`.  The transport connection itself is
untouched. -/
def exit (s : ClientState) : ClientState × List GCEvent :=
  let s1 : ClientState := { s with retry_welcome_loop := killLoop s.retry_welcome_loop }
  let s2 : ClientState :=
    if app_id ∈ s1.current_games_played then
      { s1 with current_games_played := s1.current_games_played.erase app_id }
    else s1
  _set_connection_status s2 GCConnectionStatus.NO_SESSION

/-- The reconnection loop's per-iteration state: the backoff exponent `n`
and the `ready` flag it reads. -/
structure KnockState where
  n : Nat
  ready : Bool
  deriving DecidableEq, Repr

/-- What one iteration of `_knock_on_gc`'s `while True:` body does: send a
hello and wait for `ready` with a timeout (recording whether `ready` fired
in time), or park on `notready` (then sleep 1). -/
inductive KnockAct where
  | helloWait (timeout : Nat) (gotReady : Bool)
  | notreadyWait
  deriving DecidableEq, Repr

/-- One iteration of `Dota2Client._knock_on_gc`'s loop.  `readyFires` is
the environment's answer to `wait_event('ready', timeout=3 + 2**n)`: did
the `ready` event fire within the timeout?  Not ready: send the hello, wait
with timeout `3 + 2^n`, then `n = min(n + 1, 4)` (run regardless of the
wait's outcome).  Ready: block on `notready` (after which `ready` is
false), set `n = 1`, sleep 1. -/
def _knock_on_gc_iter (s : KnockState) (readyFires : Bool) :
    KnockState × KnockAct :=
  if s.ready = false then
    ({ n := min (s.n + 1) 4, ready := readyFires },
      KnockAct.helloWait (3 + 2 ^ s.n) readyFires)
  else
    ({ n := 1, ready := false }, KnockAct.notreadyWait)

/-- The loop state after `i` iterations of `_knock_on_gc` in which the
`ready` wait always times out, from the entry state `n = 1`, not ready. -/
def knockRunState : Nat → KnockState
  | 0 => { n := 1, ready := false }
  | i + 1 => (_knock_on_gc_iter (knockRunState i) false).1

/-- The sequence of job ids produced by `k` consecutive `send_job` calls
starting from counter state `c` (each call stores the id it returns back
into `current_jobid`). -/
def jobidSeq (c : Nat) : Nat → List Nat
  | 0 => []
  | k + 1 => next_jobid c :: jobidSeq (next_jobid c) k

/-- The counter state after `m` consecutive `send_job` calls from `c`. -/
def jobState (c : Nat) : Nat → Nat
  | 0 => c
  | m + 1 => jobState (next_jobid c) m

/-- The proto class `_send` ends up testing: the `proto` argument when
given, else the `find_proto(emsg)` lookup result. -/
def resolved_proto (reg : SchemaRegistry) (emsg : Nat) (proto : Option Nat) : Option Nat :=
  match proto with
  | none => reg.find_proto emsg
  | some q => some q

/-- Whether `_send`'s proto resolution succeeds: some class resolves and it
is a protobuf message class. -/
def proto_ok (reg : SchemaRegistry) (emsg : Nat) (proto : Option Nat) : Bool :=
  match resolved_proto reg emsg proto with
  | none => false
  | some pc => reg.is_message_class pc

/-- A sample schema registry where every message type resolves. -/
def regAll : SchemaRegistry :=
  { get_emsg_enum := fun e => e
    find_proto := fun _ => some 1
    is_message_class := fun _ => true }

/-- A sample schema registry where no message type resolves. -/
def regNone : SchemaRegistry :=
  { get_emsg_enum := fun e => e
    find_proto := fun _ => none
    is_message_class := fun _ => false }

/-- A sample state with an established session and a running retry loop. -/
def readyState : ClientState :=
  { initState with
    ready := true
    connection_status := GCConnectionStatus.HAVE_SESSION
    retry_welcome_loop := LoopStatus.running }

/-- `readyState` with the app declared in `current_games_played`. -/
def readyPlayingState : ClientState :=
  { readyState with current_games_played := [570] }

/-! ## Job id allocation (C1) -/

theorem next_jobid_bounds (c : Nat) : 1 ≤ next_jobid c ∧ next_jobid c ≤ 9999 := by
  unfold next_jobid
  have h : (c + 1) % 10000 < 10000 := Nat.mod_lt _ (by omega)
  split <;> omega

theorem next_jobid_of_lt {c : Nat} (h : c < 9999) : next_jobid c = c + 1 := by
  unfold next_jobid
  have h1 : (c + 1) % 10000 = c + 1 := Nat.mod_eq_of_lt (by omega)
  rw [h1]
  split <;> omega

theorem next_jobid_9999 : next_jobid 9999 = 1 := by decide

theorem jobidSeq_no_wrap :
    ∀ (m c : Nat), c + m ≤ 9999 → jobidSeq c m = List.range' (c + 1) m := by
  intro m
  induction m with
  | zero => intro c _; rfl
  | succ k ih =>
    intro c hc
    rw [jobidSeq, next_jobid_of_lt (by omega), List.range'_succ, ih (c + 1) (by omega)]

theorem jobState_no_wrap :
    ∀ (m c : Nat), c + m ≤ 9999 → jobState c m = c + m := by
  intro m
  induction m with
  | zero => intro c _; rfl
  | succ k ih =>
    intro c hc
    rw [jobState, next_jobid_of_lt (by omega), ih (c + 1) (by omega)]
    omega

theorem jobidSeq_append :
    ∀ (m k c : Nat), jobidSeq c (m + k) = jobidSeq c m ++ jobidSeq (jobState c m) k := by
  intro m
  induction m with
  | zero => intro k c; rw [Nat.zero_add]; rfl
  | succ j ih =>
    intro k c
    rw [show j + 1 + k = (j + k) + 1 from by omega, jobidSeq, jobidSeq, ih k (next_jobid c)]
    rfl

theorem jobidSeq_from_9999 :
    ∀ (c : Nat), c ≤ 9999 → jobidSeq 9999 c = List.range' 1 c := by
  intro c hc
  cases c with
  | zero => rfl
  | succ k =>
    rw [jobidSeq, next_jobid_9999, jobidSeq_no_wrap k 1 (by omega), List.range'_succ]

theorem jobidSeq_split (c : Nat) (h : c < 9999) :
    jobidSeq c 9999 = List.range' (c + 1) (9999 - c) ++ List.range' 1 c := by
  have h1 : jobidSeq c ((9999 - c) + c)
      = List.range' (c + 1) (9999 - c) ++ List.range' 1 c := by
    rw [jobidSeq_append (9999 - c) c c, jobidSeq_no_wrap (9999 - c) c (by omega),
        jobState_no_wrap (9999 - c) c (by omega),
        show c + (9999 - c) = 9999 from by omega, jobidSeq_from_9999 c (by omega)]
  rw [show (9999 - c) + c = 9999 from by omega] at h1
  exact h1

theorem jobidSeq_cycle (c : Nat) (h : c ≤ 9999) :
    jobidSeq c 9999 =
      List.range' (c % 9999 + 1) (9999 - c % 9999) ++ List.range' 1 (c % 9999) := by
  rcases Nat.lt_or_ge c 9999 with hlt | hge
  · rw [Nat.mod_eq_of_lt hlt]
    exact jobidSeq_split c hlt
  · have hc : c = 9999 := by omega
    subst hc
    rw [Nat.mod_self]
    simpa using jobidSeq_from_9999 9999 (by omega)

theorem jobidSeq_count (c : Nat) (h : c ≤ 9999) (v : Nat) (h1 : 1 ≤ v) (h2 : v ≤ 9999) :
    (jobidSeq c 9999).count v = 1 := by
  rw [jobidSeq_cycle c h]
  have hperm :
      (List.range' (c % 9999 + 1) (9999 - c % 9999) ++ List.range' 1 (c % 9999)).Perm
        (List.range' 1 9999) := by
    have happ := List.range'_append 1 (c % 9999) (9999 - c % 9999) 1
    rw [show 1 + 1 * (c % 9999) = c % 9999 + 1 from by omega,
        show (9999 - c % 9999) + (c % 9999) = 9999 from by
          have := Nat.mod_lt c (show 0 < 9999 from by omega)
          omega] at happ
    refine List.perm_append_comm.trans ?_
    rw [happ]
  rw [hperm.count_eq v]
  exact List.count_eq_one_of_mem (List.nodup_range' 1 9999)
    (List.mem_range'_1.mpr ⟨h1, by omega⟩)

/-- C1 (amended): `send_job` assigns `next_jobid` of the current counter and
returns the corresponding job key; the assigned id always lies in
`[1, 9999]` and is never the sentinel `JOBID_NONE`; and over 9999 (not
10000) consecutive `send_job` calls from any reachable counter state the
ids run through `[1, 9999]` in cyclic order, each value exactly once. -/
theorem send_job_jobid_cycle (c : Nat) (h : c ≤ 9999) :
    (∀ (reg : SchemaRegistry) (s : ClientState) (emsg : Nat) (data : PyData)
        (proto : Option Nat),
      (send_job reg s emsg data proto).1 = WaitKey.job (next_jobid s.current_jobid)
      ∧ (send_job reg s emsg data proto).2.1.current_jobid = next_jobid s.current_jobid)
    ∧ (∀ d : Nat, 1 ≤ next_jobid d ∧ next_jobid d ≤ 9999 ∧ next_jobid d ≠ JOBID_NONE)
    ∧ jobidSeq c 9999 =
        List.range' (c % 9999 + 1) (9999 - c % 9999) ++ List.range' 1 (c % 9999)
    ∧ (∀ v, 1 ≤ v → v ≤ 9999 → (jobidSeq c 9999).count v = 1) := by
  refine ⟨fun reg s emsg data proto => ⟨rfl, rfl⟩, fun d => ?_,
    jobidSeq_cycle c h, fun v h1 h2 => jobidSeq_count c h v h1 h2⟩
  have hb := next_jobid_bounds d
  refine ⟨hb.1, hb.2, ?_⟩
  have h2 := hb.2
  unfold JOBID_NONE
  omega

/-- Witness for `send_job_jobid_cycle` at the initial counter state 0. -/
theorem send_job_jobid_cycle_witness :
    (0 : Nat) ≤ 9999 ∧ (jobidSeq 0 9999).count 5 = 1 :=
  ⟨by decide, (send_job_jobid_cycle 0 (by decide)).2.2.2 5 (by decide) (by decide)⟩

/-- C1 counterexample: over 10000 consecutive `send_job` calls from the
initial counter state 0, the id 1 is assigned twice, not exactly once (the
allocation cycle has length 9999, so 10000 consecutive calls must repeat a
value). -/
theorem send_job_cycle_10000_cex :
    (jobidSeq 0 10000).count 1 = 2 ∧ (jobidSeq 0 10000).count 1 ≠ 1 := by
  have h9 : jobidSeq 9999 1 = [1] := by
    rw [jobidSeq, next_jobid_9999]
    rfl
  have h : (jobidSeq 0 10000).count 1 = 2 := by
    rw [show (10000 : Nat) = 9999 + 1 from by norm_num, jobidSeq_append 9999 1 0,
        jobState_no_wrap 9999 0 (by omega), show (0 : Nat) + 9999 = 9999 from by omega,
        h9, List.count_append, jobidSeq_count 0 (by omega) 1 (by omega) (by omega)]
    decide
  exact ⟨h, by omega⟩

/-! ## Session state machine (C2) -/

/-- C2: after `_set_connection_status`, `ready` is true iff the stored
status is `HAVE_SESSION`; the stored status is the requested one; a
`connection_status` event is emitted exactly once iff the status changed
value; `ready`/`notready` are each emitted exactly once iff the derived
ready flag flipped the corresponding way; and a no-op re-set of the current
status emits nothing. -/
theorem set_connection_status_spec (s : ClientState) (status : GCConnectionStatus)
    (h : s.ready = true ↔ s.connection_status = GCConnectionStatus.HAVE_SESSION) :
    ((_set_connection_status s status).1.ready = true ↔
      (_set_connection_status s status).1.connection_status = GCConnectionStatus.HAVE_SESSION)
    ∧ (_set_connection_status s status).1.connection_status = status
    ∧ ((_set_connection_status s status).2.count (GCEvent.connection_status status) =
        if status ≠ s.connection_status then 1 else 0)
    ∧ ((_set_connection_status s status).2.count GCEvent.ready =
        if s.ready = false ∧ (_set_connection_status s status).1.ready = true then 1 else 0)
    ∧ ((_set_connection_status s status).2.count GCEvent.notready =
        if s.ready = true ∧ (_set_connection_status s status).1.ready = false then 1 else 0)
    ∧ (status = s.connection_status → (_set_connection_status s status).2 = []) := by
  obtain ⟨cj, rd, cs, rl, gp, ls, tc⟩ := s
  cases status <;> cases cs <;> cases rd <;>
    simp_all [_set_connection_status, List.count_cons]

/-- Witness for `set_connection_status_spec`: establishing a session from
the initial state emits `connection_status` once. -/
theorem set_connection_status_spec_witness :
    (initState.ready = true ↔ initState.connection_status = GCConnectionStatus.HAVE_SESSION)
    ∧ (_set_connection_status initState GCConnectionStatus.HAVE_SESSION).1.connection_status
        = GCConnectionStatus.HAVE_SESSION :=
  ⟨by decide,
    (set_connection_status_spec initState GCConnectionStatus.HAVE_SESSION (by decide)).2.1⟩

/-! ## Pending waits (C3) -/

theorem count_register_wait_self (k : WaitKey) (l : List WaitKey) :
    (register_wait k l).count k = 1 := by
  unfold register_wait
  rw [List.count_cons]
  have h0 : (l.filter (fun k' => k' ≠ k)).count k = 0 := by
    rw [List.count_eq_zero]
    intro hmem
    have := (List.mem_filter.mp hmem).2
    simp at this
  rw [h0]
  simp

theorem count_register_wait_other (k k' : WaitKey) (l : List WaitKey) (h : k' ≠ k) :
    (register_wait k l).count k' = l.count k' := by
  unfold register_wait
  rw [List.count_cons, List.count_filter (by simpa using h)]
  simp [h, Ne.symm h]

/-- C3: registering a wait for a key yields exactly one pending wait for
that key whatever was registered before (the stale one is cleared first),
leaves every other key's waits untouched, and so preserves the
at-most-one-wait-per-key invariant; and `send_job` clears all listeners of
the freshly allocated `job_<id>` key before returning it. -/
theorem wait_key_at_most_one (s : ClientState) (k : WaitKey) (reg : SchemaRegistry)
    (emsg : Nat) (data : PyData) (proto : Option Nat) :
    (register_wait k s.listeners).count k = 1
    ∧ (∀ k', k' ≠ k → (register_wait k s.listeners).count k' = s.listeners.count k')
    ∧ ((∀ k₀, s.listeners.count k₀ ≤ 1) →
        ∀ k₀, (register_wait k s.listeners).count k₀ ≤ 1)
    ∧ (send_job reg s emsg data proto).2.1.listeners.count
        (WaitKey.job (next_jobid s.current_jobid)) = 0 := by
  refine ⟨count_register_wait_self k s.listeners,
    fun k' h => count_register_wait_other k k' s.listeners h, ?_, ?_⟩
  · intro hinv k₀
    by_cases hk : k₀ = k
    · subst hk
      rw [count_register_wait_self]
    · rw [count_register_wait_other k k₀ s.listeners hk]
      exact hinv k₀
  · rw [List.count_eq_zero]
    intro hmem
    have := (List.mem_filter.mp hmem).2
    simp at this

/-- Witness for `wait_key_at_most_one` on a state with a stale wait already
registered for the key. -/
theorem wait_key_at_most_one_witness :
    (register_wait (WaitKey.job 7)
      { initState with listeners := [WaitKey.job 7, WaitKey.msg 3] }.listeners).count
        (WaitKey.job 7) = 1 :=
  (wait_key_at_most_one { initState with listeners := [WaitKey.job 7, WaitKey.msg 3] }
    (WaitKey.job 7) regAll 0 (PyData.dict []) none).1

/-! ## Reconnection backoff (C4) -/

theorem knockRunState_eq : ∀ i : Nat, knockRunState i = { n := min (i + 1) 4, ready := false } := by
  intro i
  induction i with
  | zero => rfl
  | succ j ih =>
    rw [knockRunState, ih]
    simp only [_knock_on_gc_iter]
    norm_num
    omega

/-- C4 (amended): in `_knock_on_gc`, `n` starts at 1 and each hello waits
for `ready` with timeout `3 + 2^n`; on timeout `n` becomes `min (n+1) 4`,
so an all-timeout run uses timeouts `3 + 2^(min (i+1) 4)` (5, 7, 11, 19,
19, ...); after a successful wait `n` is likewise `min (n+1) 4` — it is
*not* reset immediately on success, but on the subsequent `notready` edge,
so the first retry after a later session loss again uses timeout
`3 + 2^1`. -/
theorem knock_backoff_spec :
    (knockRunState 0).n = 1
    ∧ (∀ i : Nat, (_knock_on_gc_iter (knockRunState i) false).2 =
        KnockAct.helloWait (3 + 2 ^ min (i + 1) 4) false)
    ∧ (∀ s : KnockState, s.ready = false → ∀ b : Bool,
        (_knock_on_gc_iter s b).2 = KnockAct.helloWait (3 + 2 ^ s.n) b
        ∧ (_knock_on_gc_iter s b).1.n = min (s.n + 1) 4
        ∧ (_knock_on_gc_iter s b).1.ready = b)
    ∧ (∀ s : KnockState, s.ready = true →
        (_knock_on_gc_iter s true).1 = { n := 1, ready := false })
    ∧ (∀ s : KnockState, s.ready = true →
        (_knock_on_gc_iter (_knock_on_gc_iter s true).1 false).2 =
          KnockAct.helloWait (3 + 2 ^ 1) false) := by
  refine ⟨rfl, fun i => ?_, fun s hs b => ?_, fun s hs => ?_, fun s hs => ?_⟩
  · rw [knockRunState_eq i]
    simp [_knock_on_gc_iter]
  · obtain ⟨n, rd⟩ := s
    simp_all [_knock_on_gc_iter]
  · obtain ⟨n, rd⟩ := s
    simp_all [_knock_on_gc_iter]
  · obtain ⟨n, rd⟩ := s
    simp_all [_knock_on_gc_iter]

/-- Witness for `knock_backoff_spec`: the first two all-timeout hellos use
timeouts 5 and 7. -/
theorem knock_backoff_spec_witness :
    (_knock_on_gc_iter (knockRunState 0) false).2 = KnockAct.helloWait 5 false
    ∧ (_knock_on_gc_iter (knockRunState 1) false).2 = KnockAct.helloWait 7 false :=
  ⟨knock_backoff_spec.2.1 0, knock_backoff_spec.2.1 1⟩

/-- C4 counterexample: the claim "on success n is reset to 1" is false of
the code — after a hello wait that succeeds (the `ready` event fires in
time) from the entry state `n = 1`, the code still runs
`n = min(n + 1, 4)`, leaving `n = 2`, not 1. -/
theorem knock_reset_on_success_cex :
    (_knock_on_gc_iter { n := 1, ready := false } true).1.n = 2
    ∧ ¬ ((_knock_on_gc_iter { n := 1, ready := false } true).1.n = 1) := by
  decide

/-! ## Send-argument validation (C5) -/

/-- C5: `_send` fails (raising to its immediate caller) iff the `data`
argument is not a dict or no protobuf message class resolves (neither a
valid one given via the `proto` argument nor one found by `find_proto`);
otherwise it succeeds and hands the transport exactly the envelope built
from the resolved class, the dict, and the supplied job id — so on error
nothing reaches the transport, and on valid arguments it never raises. -/
theorem send_raises_iff (reg : SchemaRegistry) (emsg : Nat) (data : PyData)
    (proto : Option Nat) (jobid : Option Nat) :
    ((_send reg emsg data proto jobid).isOk = false ↔
      (data = PyData.other ∨ proto_ok reg emsg proto = false))
    ∧ (∀ entries, data = PyData.dict entries → proto_ok reg emsg proto = true →
        ∃ pc, resolved_proto reg emsg proto = some pc
          ∧ _send reg emsg data proto jobid = Except.ok
              { header :=
                  { msg := emsg
                    job_id_source := (match jobid with | some j => j | none => JOBID_NONE)
                    job_id_target := JOBID_NONE }
                proto_class := pc
                data := entries }) := by
  constructor
  · cases data with
    | other => simp [_send, Except.isOk, Except.toBool]
    | dict entries =>
      cases proto with
      | some q =>
        simp only [_send, proto_ok, resolved_proto]
        cases hm : reg.is_message_class q <;> simp [Except.isOk, Except.toBool, hm]
      | none =>
        simp only [_send, proto_ok, resolved_proto]
        cases hp : reg.find_proto emsg with
        | none => simp [Except.isOk, Except.toBool]
        | some pc =>
          cases hm : reg.is_message_class pc <;> simp [Except.isOk, Except.toBool, hm]
  · intro entries hdata hok
    subst hdata
    cases proto with
    | some q =>
      have hq : reg.is_message_class q = true := hok
      exact ⟨q, rfl, by simp [_send, hq]⟩
    | none =>
      cases hp : reg.find_proto emsg with
      | none =>
        simp only [proto_ok, resolved_proto, hp] at hok
        exact Bool.noConfusion hok
      | some pc =>
        have hm : reg.is_message_class pc = true := by
          simp only [proto_ok, resolved_proto, hp] at hok
          exact hok
        refine ⟨pc, ?_, ?_⟩
        · rw [resolved_proto, hp]
        · simp [_send, hp, hm]

/-- Witness for `send_raises_iff`: a non-dict `data` argument makes `_send`
fail even with a fully resolving registry. -/
theorem send_raises_iff_witness :
    (_send regAll 7 PyData.other none (some 3)).isOk = false :=
  (send_raises_iff regAll 7 PyData.other none (some 3)).1.mpr (Or.inl rfl)

/-! ## Inbound dispatch (C6) -/

/-- C6: `_process_gc_message` drops the message (emitting nothing) iff no
proto is registered for the converted message-type id; otherwise it emits
the decoded message under the message-type key, additionally emits it under
the `job_<target>` key iff the header's `job_id_target` differs from the
sentinel `18446744073709551615`, and emits nothing else. -/
theorem process_gc_message_spec (reg : SchemaRegistry) (emsg : Nat)
    (header : GCMsgHdrProto) (payload : List Nat) :
    (_process_gc_message reg emsg header payload = [] ↔
      reg.find_proto (reg.get_emsg_enum emsg) = none)
    ∧ (∀ p, reg.find_proto (reg.get_emsg_enum emsg) = some p →
        GCEvent.msg (reg.get_emsg_enum emsg) { proto := p, payload := payload }
            ∈ _process_gc_message reg emsg header payload
        ∧ (GCEvent.job header.job_id_target { proto := p, payload := payload }
              ∈ _process_gc_message reg emsg header payload ↔
            header.job_id_target ≠ JOBID_NONE)
        ∧ ∀ ev ∈ _process_gc_message reg emsg header payload,
            ev = GCEvent.msg (reg.get_emsg_enum emsg) { proto := p, payload := payload }
            ∨ ev = GCEvent.job header.job_id_target { proto := p, payload := payload }) := by
  cases hp : reg.find_proto (reg.get_emsg_enum emsg) with
  | none =>
    refine ⟨by simp [_process_gc_message, hp], fun p hps => ?_⟩
    cases hps
  | some p =>
    refine ⟨by by_cases ht : header.job_id_target = JOBID_NONE <;>
        simp [_process_gc_message, hp, ht], fun q hq => ?_⟩
    cases hq
    by_cases ht : header.job_id_target = JOBID_NONE <;>
      simp [_process_gc_message, hp, ht]

/-- Witness for `process_gc_message_spec`: with no registered proto the
dispatch of a message is dropped. -/
theorem process_gc_message_spec_witness :
    _process_gc_message regNone 5 { msg := 5 } [] = [] :=
  (process_gc_message_spec regNone 5 { msg := 5 } []).1.mpr rfl

/-! ## Wait/timeout exclusivity (C7) -/

/-- C7: each `wait_msg` call resolves in exactly one way, characterized by
the wait outcome and the `raises` policy: it returns the decoded message
iff the wait matched; it returns `none` without raising iff the wait timed
out with `raises = false`; and it raises the timeout iff the wait timed out
with `raises = true`. -/
theorem wait_msg_exclusive (outcome : WaitOutcome) (raises : Bool) :
    (∀ m, wait_msg outcome raises = Except.ok (some m) ↔ outcome = WaitOutcome.matched m)
    ∧ (wait_msg outcome raises = Except.ok none ↔
        (outcome = WaitOutcome.timedOut ∧ raises = false))
    ∧ (wait_msg outcome raises = Except.error GTimeout.timeout ↔
        (outcome = WaitOutcome.timedOut ∧ raises = true)) := by
  cases outcome <;> cases raises <;> simp [wait_msg, wait_event]

/-- Witness for `wait_msg_exclusive`: a timed-out wait with
`raises = false` returns `none` without raising. -/
theorem wait_msg_exclusive_witness :
    wait_msg WaitOutcome.timedOut false = Except.ok none :=
  (wait_msg_exclusive WaitOutcome.timedOut false).2.1.mpr ⟨rfl, rfl⟩

/-! ## Disconnect handling (C8) -/

theorem set_status_no_session_events (s : ClientState) :
    (_set_connection_status s GCConnectionStatus.NO_SESSION).1.connection_status
        = GCConnectionStatus.NO_SESSION
    ∧ (_set_connection_status s GCConnectionStatus.NO_SESSION).1.ready = false
    ∧ (s.ready = true →
        (_set_connection_status s GCConnectionStatus.NO_SESSION).2.count GCEvent.notready = 1)
    ∧ (s.ready = false →
        GCEvent.notready ∉ (_set_connection_status s GCConnectionStatus.NO_SESSION).2) := by
  obtain ⟨cj, rd, cs, rl, gp, ls, tc⟩ := s
  cases cs <;> cases rd <;> simp_all [_set_connection_status, List.count_cons]

/-- C8: on a transport disconnect notification, whatever the current
status, the status becomes `NO_SESSION` (with `ready` false afterwards, and
`notready` emitted exactly once iff the session was ready); and the retry
loop is killed if it was running, so it is never left running. -/
theorem handle_disconnect_spec (s : ClientState) :
    (_handle_disconnect s).1.connection_status = GCConnectionStatus.NO_SESSION
    ∧ (_handle_disconnect s).1.ready = false
    ∧ (_handle_disconnect s).1.retry_welcome_loop ≠ LoopStatus.running
    ∧ (s.retry_welcome_loop = LoopStatus.running →
        (_handle_disconnect s).1.retry_welcome_loop = LoopStatus.dead)
    ∧ (s.ready = true → (_handle_disconnect s).2.count GCEvent.notready = 1)
    ∧ (s.ready = false → GCEvent.notready ∉ (_handle_disconnect s).2) := by
  unfold _handle_disconnect
  have h := set_status_no_session_events
    { s with retry_welcome_loop := killLoop s.retry_welcome_loop }
  refine ⟨h.1, h.2.1, ?_, ?_, fun hr => h.2.2.1 hr, fun hr => h.2.2.2 hr⟩
  · have hs : (_set_connection_status
        { s with retry_welcome_loop := killLoop s.retry_welcome_loop }
        GCConnectionStatus.NO_SESSION).1.retry_welcome_loop = killLoop s.retry_welcome_loop := by
      obtain ⟨cj, rd, cs, rl, gp, ls, tc⟩ := s
      cases cs <;> cases rd <;> simp [_set_connection_status]
    rw [hs]
    cases s.retry_welcome_loop <;> simp [killLoop]
  · intro hr
    have hs : (_set_connection_status
        { s with retry_welcome_loop := killLoop s.retry_welcome_loop }
        GCConnectionStatus.NO_SESSION).1.retry_welcome_loop = killLoop s.retry_welcome_loop := by
      obtain ⟨cj, rd, cs, rl, gp, ls, tc⟩ := s
      cases cs <;> cases rd <;> simp [_set_connection_status]
    rw [hs, hr]
    rfl

/-- Witness for `handle_disconnect_spec` on a ready session with a running
retry loop. -/
theorem handle_disconnect_spec_witness :
    (_handle_disconnect readyState).2.count GCEvent.notready = 1
    ∧ (_handle_disconnect readyState).1.retry_welcome_loop = LoopStatus.dead :=
  ⟨(handle_disconnect_spec readyState).2.2.2.2.1 rfl,
   (handle_disconnect_spec readyState).2.2.2.1 rfl⟩

/-! ## Welcome handling (C9) -/

theorem processExtras_eq_flatMap (reg : SchemaRegistry) :
    ∀ l : List ExtraMsg, processExtras reg l =
      l.flatMap (fun extra =>
        _process_gc_message reg extra.id { msg := extra.id } extra.contents) := by
  intro l
  induction l with
  | nil => rfl
  | cons extra rest ih => rw [processExtras, ih]; rfl

theorem set_status_have_session (s : ClientState) :
    (_set_connection_status s GCConnectionStatus.HAVE_SESSION).1.connection_status
        = GCConnectionStatus.HAVE_SESSION
    ∧ (_set_connection_status s GCConnectionStatus.HAVE_SESSION).1.ready = true := by
  obtain ⟨cj, rd, cs, rl, gp, ls, tc⟩ := s
  cases cs <;> cases rd <;> simp [_set_connection_status]

/-- C9: handling a client-welcome message first sets the status to
`HAVE_SESSION` (so the state and its events are exactly those of that
status transition, with `ready` true afterwards), then emits the
`dota_welcome` event carrying the decoded welcome sub-message, and then
dispatches each embedded extra message through `_process_gc_message`, in
order, each under a fresh header whose job target is the sentinel. -/
theorem handle_client_welcome_spec (reg : SchemaRegistry) (s : ClientState)
    (message : CMsgClientWelcome) :
    (_handle_client_welcome reg s message).1.connection_status = GCConnectionStatus.HAVE_SESSION
    ∧ (_handle_client_welcome reg s message).1.ready = true
    ∧ (_handle_client_welcome reg s message).1 =
        (_set_connection_status s GCConnectionStatus.HAVE_SESSION).1
    ∧ (_handle_client_welcome reg s message).2 =
        (_set_connection_status s GCConnectionStatus.HAVE_SESSION).2
          ++ [GCEvent.dota_welcome message.game_data]
          ++ message.game_data.extra_messages.flatMap (fun extra =>
              _process_gc_message reg extra.id { msg := extra.id } extra.contents) := by
  have h := set_status_have_session s
  exact ⟨h.1, h.2, rfl, by
    rw [show (_handle_client_welcome reg s message).2 =
        (_set_connection_status s GCConnectionStatus.HAVE_SESSION).2
          ++ [GCEvent.dota_welcome message.game_data]
          ++ processExtras reg message.game_data.extra_messages from rfl,
      processExtras_eq_flatMap reg message.game_data.extra_messages]⟩

/-- Witness for `handle_client_welcome_spec` on the initial state and a
welcome with one undecodable extra message. -/
theorem handle_client_welcome_spec_witness :
    (_handle_client_welcome regNone initState
      { game_data := { extra_messages := [{ id := 9, contents := [1] }] } }).1.ready = true :=
  (handle_client_welcome_spec regNone initState
    { game_data := { extra_messages := [{ id := 9, contents := [1] }] } }).2.1

/-! ## Exit (C10) -/

/-- C10: `exit` kills the retry loop if it was running (never leaving it
running), removes `app_id` from the declared played-apps set (a no-op when
absent), and unconditionally sets the status to `NO_SESSION` — emitting
`notready` exactly once iff the session was ready — while the transport
connection flag is left untouched. -/
theorem exit_spec (s : ClientState) :
    (Dota2.exit s).1.connection_status = GCConnectionStatus.NO_SESSION
    ∧ (Dota2.exit s).1.ready = false
    ∧ (Dota2.exit s).1.retry_welcome_loop ≠ LoopStatus.running
    ∧ (s.retry_welcome_loop = LoopStatus.running →
        (Dota2.exit s).1.retry_welcome_loop = LoopStatus.dead)
    ∧ (Dota2.exit s).1.current_games_played = s.current_games_played.erase app_id
    ∧ (s.ready = true → (Dota2.exit s).2.count GCEvent.notready = 1)
    ∧ (s.ready = false → GCEvent.notready ∉ (Dota2.exit s).2)
    ∧ (Dota2.exit s).1.transport_connected = s.transport_connected := by
  obtain ⟨cj, rd, cs, rl, gp, ls, tc⟩ := s
  by_cases hg : app_id ∈ gp
  · cases cs <;> cases rd <;> cases rl <;>
      simp_all [Dota2.exit, _set_connection_status, killLoop, List.count_cons]
  · cases cs <;> cases rd <;> cases rl <;>
      simp_all [Dota2.exit, _set_connection_status, killLoop, List.count_cons,
        List.erase_of_not_mem]

/-- Witness for `exit_spec` on a ready session playing the app with a
running retry loop. -/
theorem exit_spec_witness :
    (Dota2.exit readyPlayingState).2.count GCEvent.notready = 1
    ∧ (Dota2.exit readyPlayingState).1.current_games_played = List.erase [570] app_id :=
  ⟨(exit_spec readyPlayingState).2.2.2.2.2.1 rfl,
   (exit_spec readyPlayingState).2.2.2.2.1⟩

end Dota2
